import Mathlib

/-!
Shallow embedding of the Infinario Python SDK (file `infinario.py`) and
verification of the specified properties of its buffered asynchronous
delivery subsystem, its synchronous transport and its target-URL handling.

Conventions of the embedding:
* machine time (`time.time()`) is modelled as a rational number;
* JSON payloads are opaque strings (the code never inspects them);
* Python exceptions are the inductive `PyExc`;
* fallible code returns `Except` or an explicit result inductive.
-/

namespace Infinario

/-- Constant `DEFAULT_TARGET` of `infinario.py`. -/
def DEFAULT_TARGET : String := "https://api.infinario.com/"

/-- Constant `ASYNC_BUFFER_MAX_SIZE = 50` of `infinario.py`. -/
def ASYNC_BUFFER_MAX_SIZE : Nat := 50

/-- Constant `ASYNC_BUFFER_TIMEOUT = 1` (seconds) of `infinario.py`. -/
def ASYNC_BUFFER_TIMEOUT : ℚ := 1

/-- A buffered command, as built by `AsynchronousTransport.send_and_ignore`:
`{'name': service, 'data': message, 'scheduled': time.time()}`. -/
structure Command where
  name : String
  data : String
  scheduled : ℚ
deriving DecidableEq

/-- One entry of the `results` list in a bulk response: an optional
`status` field and an `errors` field (defaulting to the empty list). -/
structure BulkResult where
  status : Option String
  errors : List String
deriving DecidableEq

/-- Python exceptions raised by the code under study. `valueError` is
Python's builtin `ValueError` (the spec's `ConfigurationError`);
`attributeError` is Python's builtin `AttributeError`. -/
inductive PyExc where
  | invalidRequest (msg : String)
  | serviceUnavailable (msg : String)
  | authenticationError (msg : String)
  | valueError (msg : String)
  | attributeError (msg : String)
deriving DecidableEq

/-- The message carried by an exception. -/
def PyExc.message : PyExc → String
  | .invalidRequest m => m
  | .serviceUnavailable m => m
  | .authenticationError m => m
  | .valueError m => m
  | .attributeError m => m

/-- Result of `ErrorHandler.handle(error_message, exception_cls, no_raise)`:
either the message was logged (silent mode or `no_raise`) or the exception
was raised. -/
inductive Handled where
  | logged (msg : String)
  | raised (e : PyExc)
deriving DecidableEq

/-- `ErrorHandler.handle`: `if self._silent or no_raise: log; else raise`. -/
def ErrorHandler.handle (silent : Bool) (msg : String) (mk : String → PyExc)
    (no_raise : Bool) : Handled :=
  if silent || no_raise then .logged msg else .raised (mk msg)

/-! ## Bulk-response reconciliation (`Worker._send_bulk`) -/

/-- `results[i].get('status', 'missing') if i < len(results) else 'retry'`. -/
def statusOf (results : List BulkResult) (i : Nat) : String :=
  match results.get? i with
  | some r => r.status.getD "missing"
  | none => "retry"

/-- `results[i].get('errors', [])` (only evaluated when `i < len(results)`). -/
def errorsAt (results : List BulkResult) (i : Nat) : List String :=
  match results.get? i with
  | some r => r.errors
  | none => []

/-- The per-command error message built by `Worker._send_bulk`
(`'Infinario API bulk command failed with status .., errors: ..'`). -/
def bulkErrorMessage (status : String) (errors : List String) : String :=
  "Infinario API bulk command failed with status " ++ status ++
    ", errors: " ++ toString errors

/-- The classification loop of `Worker._send_bulk`, iterating over the
submitted batch from index `i` on: `ok` commands are dropped, `retry`
commands are collected as leftovers, all others produce error messages. -/
def reconcileAux (results : List BulkResult) : Nat → List Command → List Command × List String
  | _, [] => ([], [])
  | i, c :: rest =>
    let s := statusOf results i
    let p := reconcileAux results (i + 1) rest
    if s = "ok" then p
    else if s = "retry" then (c :: p.1, p.2)
    else (p.1, bulkErrorMessage s (errorsAt results i) :: p.2)

/-- Reconciliation of a submitted batch against the bulk response:
returns the leftovers (in original order) and the error messages. -/
def reconcile (selected : List Command) (results : List BulkResult) :
    List Command × List String :=
  reconcileAux results 0 selected

/-! ## Worker shared state and one bulk send -/

/-- The cross-thread fields of `_WorkerData` that the claims concern:
the command buffer and the `flush` / `stop` flags. -/
structure WorkerData where
  buffer : List Command
  flush : Bool
  stop : Bool
deriving DecidableEq

/-- `Worker._send_bulk` on shared state `d`, given the bulk response
`results` and the commands `appended` by producers while the lock was
released for the network round trip.  Mirrors the source: it selects
`buffer[:ASYNC_BUFFER_MAX_SIZE]`, reconciles, reports every error message
through the error handler (in raising mode the first one raises, aborting
the method), and finally assigns
`buffer = leftovers + buffer[ASYNC_BUFFER_MAX_SIZE:]` where `buffer` now
also holds the appended commands.  On success it returns the new state and
the logged messages. -/
def sendBulkStep (silent : Bool) (d : WorkerData) (results : List BulkResult)
    (appended : List Command) : Except PyExc (WorkerData × List String) :=
  let selected := d.buffer.take ASYNC_BUFFER_MAX_SIZE
  let bufferAtReconcile := d.buffer ++ appended
  let r := reconcile selected results
  if silent then
    .ok ({ d with buffer := r.1 ++ bufferAtReconcile.drop ASYNC_BUFFER_MAX_SIZE }, r.2)
  else
    match r.2 with
    | [] => .ok ({ d with buffer := r.1 ++ bufferAtReconcile.drop ASYNC_BUFFER_MAX_SIZE }, [])
    | e :: _ => .error (PyExc.serviceUnavailable e)

/-- The shared state actually left behind by `Worker._send_bulk`: when the
error handler raises, the buffer assignment is skipped, so the buffer keeps
the submitted commands together with the appended ones. -/
def runSendBulk (silent : Bool) (d : WorkerData) (results : List BulkResult)
    (appended : List Command) : WorkerData :=
  match sendBulkStep silent d results appended with
  | .ok (d', _) => d'
  | .error _ => { d with buffer := d.buffer ++ appended }

/-! ## The worker loop (`Worker.run`) -/

/-- `timeout_in = buffer[0]['scheduled'] + ASYNC_BUFFER_TIMEOUT - time.time()
if size > 0 else None`. -/
def flushTimeoutIn (buffer : List Command) (now : ℚ) : Option ℚ :=
  match buffer with
  | [] => none
  | c :: _ => some (c.scheduled + ASYNC_BUFFER_TIMEOUT - now)

/-- `timeouted = timeout_in is not None and timeout_in < 0`. -/
def timeouted (buffer : List Command) (now : ℚ) : Bool :=
  match flushTimeoutIn buffer now with
  | none => false
  | some t => decide (t < 0)

/-- The flush decision of `Worker.run`:
`(size > 0 and data.flush) or size > ASYNC_BUFFER_MAX_SIZE or timeouted`. -/
def flushCondition (d : WorkerData) (now : ℚ) : Bool :=
  (decide (0 < d.buffer.length) && d.flush) ||
    decide (ASYNC_BUFFER_MAX_SIZE < d.buffer.length) || timeouted d.buffer now

/-- What one iteration of the `Worker.run` loop does after waking. -/
inductive WorkerAction where
  | flushed (d : WorkerData)
  | died (e : PyExc) (d : WorkerData)
  | terminated
  | waited (timeout_in : Option ℚ)
deriving DecidableEq

/-- One iteration of the `Worker.run` loop at time `now`: if the flush
condition holds, perform `_send_bulk` (clearing the `flush` flag when the
buffer came out empty); otherwise break if `stop` was requested, else wait
on the condition variable with the computed timeout. -/
def workerStep (silent : Bool) (d : WorkerData) (now : ℚ)
    (results : List BulkResult) (appended : List Command) : WorkerAction :=
  if flushCondition d now then
    match sendBulkStep silent d results appended with
    | .ok (d', _) =>
      if d'.buffer.length = 0 then .flushed { d' with flush := false }
      else .flushed d'
    | .error e => .died e { d with buffer := d.buffer ++ appended }
  else if d.stop then .terminated
  else .waited (flushTimeoutIn d.buffer now)

/-- True exactly when the worker performed a bulk send on this wake-up
(whether or not the subsequent error handling raised). -/
def entersFlushing : WorkerAction → Bool
  | .flushed _ => true
  | .died _ _ => true
  | .terminated => false
  | .waited _ => false

/-! ## The asynchronous transport facade -/

/-- The state of an `AsynchronousTransport` instance. -/
structure AsynchronousTransport where
  worker_data : WorkerData
  worker_running : Bool
deriving DecidableEq

/-- `AsynchronousTransport.send_and_ignore`: builds the command, then
`_ensure_lazy_worker` raises `ValueError('The API is already closed')` if
`stop` is set (before the buffer is touched); otherwise the worker is
(lazily) running and the command is appended under the lock. -/
def send_and_ignore (t : AsynchronousTransport) (service message : String)
    (now : ℚ) : Except PyExc AsynchronousTransport :=
  let command : Command := { name := service, data := message, scheduled := now }
  if t.worker_data.stop then .error (PyExc.valueError "The API is already closed")
  else
    .ok { worker_data :=
            { t.worker_data with buffer := t.worker_data.buffer ++ [command] },
          worker_running := true }

/-- `AsynchronousTransport.flush`: sets the `flush` flag and notifies. -/
def AsynchronousTransport.flush (t : AsynchronousTransport) : AsynchronousTransport :=
  { t with worker_data := { t.worker_data with flush := true } }

/-- `AsynchronousTransport.stop`: sets both the `stop` and `flush` flags. -/
def AsynchronousTransport.stop (t : AsynchronousTransport) : AsynchronousTransport :=
  { t with worker_data := { t.worker_data with stop := true, flush := true } }

/-! ## The synchronous transport (`SynchronousTransport._send`) -/

/-- What the code observes about an HTTP response: its status code, the
`success` field of the parsed JSON envelope (defaulting to false), the
`errors` field of the envelope (absent or `null` modelled as `none`), and
the raw response text. -/
structure HttpResponse where
  status_code : Nat
  success : Bool
  errors : Option (List String)
  text : String
deriving DecidableEq

/-- Outcome of the HTTP POST issued by `SynchronousTransport._send`:
either the request library raised `ConnectionError` or `Timeout`, or a
response came back. -/
inductive HttpOutcome where
  | connectionError
  | timeout
  | response (r : HttpResponse)
deriving DecidableEq

/-- Result of `SynchronousTransport._send`: the parsed envelope on
success, or the error handler's outcome (logged message or raised
exception). -/
inductive SendResult where
  | success (r : HttpResponse)
  | logged (msg : String)
  | raised (e : PyExc)
deriving DecidableEq

/-- Lift the error handler's outcome into a send result. -/
def handleToResult : Handled → SendResult
  | .logged m => .logged m
  | .raised e => .raised e

/-- `errors = json_response.get('errors', None) or response.text`:
an absent, null or empty error list falls back to the raw text. -/
def envelopeErrors (r : HttpResponse) : String ⊕ List String :=
  match r.errors with
  | some l => if l = [] then Sum.inl r.text else Sum.inr l
  | none => Sum.inl r.text

/-- Render the error payload into message text (Python interpolation). -/
def renderErrors : String ⊕ List String → String
  | Sum.inl t => t
  | Sum.inr l => toString l

/-- Message for a connection failure. -/
def connectionErrorMessage (target : String) : String :=
  "Failed connecting to Infinario API at the given target URL " ++ target

/-- Message for a request timeout. -/
def timeoutMessage (service : String) : String :=
  "Infinario request to " ++ service ++ " failed to complete within timeout"

/-- Message for an HTTP 401 response. -/
def authFailureMessage : String := "Infinario API authentication failure"

/-- Message for an HTTP 503/504 response. -/
def unavailableMessage (errors : String) : String :=
  "Infinario API is currently unavailable or under too much load: " ++ errors

/-- Message for any other non-success envelope. -/
def invalidRequestMessage (errors : String) : String :=
  "Infinario API request failed with errors: " ++ errors

/-- `SynchronousTransport._send`, classifying one HTTP outcome exactly as
the source does: connection errors and timeouts are `ServiceUnavailable`;
then HTTP 401 is `AuthenticationError`; then an envelope with
`success=true` is returned; then 503/504 is `ServiceUnavailable`; anything
else is `InvalidRequest`.  Every failure goes through
`ErrorHandler.handle`. -/
def sendSync (silent no_raise : Bool) (target service : String)
    (o : HttpOutcome) : SendResult :=
  match o with
  | .connectionError =>
    handleToResult (ErrorHandler.handle silent (connectionErrorMessage target)
      PyExc.serviceUnavailable no_raise)
  | .timeout =>
    handleToResult (ErrorHandler.handle silent (timeoutMessage service)
      PyExc.serviceUnavailable no_raise)
  | .response r =>
    if r.status_code = 401 then
      handleToResult (ErrorHandler.handle silent authFailureMessage
        PyExc.authenticationError no_raise)
    else if r.success then .success r
    else
      let errs := renderErrors (envelopeErrors r)
      if r.status_code = 503 ∨ r.status_code = 504 then
        handleToResult (ErrorHandler.handle silent (unavailableMessage errs)
          PyExc.serviceUnavailable no_raise)
      else
        handleToResult (ErrorHandler.handle silent (invalidRequestMessage errs)
          PyExc.invalidRequest no_raise)

/-! ## Target-URL normalization (`Infinario.__init__`)

The source matches the target against the regular expression
`^(?:(https?:)?//)?([^/]+)(/*)$` and, on a match, builds
`group(1) or https:` + `//` + `group(2)` + `/`.  The match is embedded
with the engine's backtracking order: the optional scheme part tries
`https://`, then `http://`, then `//`, then nothing, and for each the
host is the maximal nonempty run of non-slash characters, which must be
followed only by slashes. -/

/-- Match `([^/]+)(/*)$` against `rest`: the host group when it matches
(the maximal non-empty run of non-slash characters, which must be
followed only by slashes). -/
def hostSplit (rest : List Char) : Option (List Char) :=
  if rest.takeWhile (fun c => c ≠ '/') = [] then none
  else if (rest.drop (rest.takeWhile (fun c => c ≠ '/')).length).all (fun c => c = '/') then
    some (rest.takeWhile (fun c => c ≠ '/'))
  else none

/-- Try one alternative of the optional scheme group: if `pre` is a
literal prefix of `cs`, match the remainder as host and trailing
slashes. -/
def matchPre (cs pre : List Char) (scheme : Option (List Char)) :
    Option (Option (List Char) × List Char) :=
  if pre.isPrefixOf cs then (hostSplit (cs.drop pre.length)).map (fun h => (scheme, h))
  else none

/-- `re.match('^(?:(https?:)?//)?([^/]+)(/*)$', target)`: the captured
scheme group (group 1, `none` when it did not participate) and host group
(group 2), following the engine's backtracking order. -/
def targetMatch (cs : List Char) : Option (Option (List Char) × List Char) :=
  match matchPre cs "https://".data (some "https:".data) with
  | some m => some m
  | none =>
    match matchPre cs "http://".data (some "http:".data) with
    | some m => some m
    | none =>
      match matchPre cs "//".data none with
      | some m => some m
      | none => (hostSplit cs).map (fun h => ((none : Option (List Char)), h))

/-- The error message for an unparsable target. -/
def invalidTargetMessage (t : String) : String :=
  "Invalid Infinario target URL " ++ t

/-- Result of the target-handling part of `Infinario.__init__`: the
normalized base URL together with the messages logged on the way, or an
exception. -/
inductive InitTargetResult where
  | ok (target : String) (logged : List String)
  | raised (e : PyExc) (logged : List String)
deriving DecidableEq

/-- The target-handling part of `Infinario.__init__`.  A falsy `target`
(`None`, modelled as `none`, or the empty string) selects `DEFAULT_TARGET`.  Otherwise the regex is
matched; on failure the error handler is consulted: in raising mode it
raises `ValueError`, while in silent mode it merely logs, after which the
code dereferences the failed match (`match.group(1)`) and crashes with
`AttributeError`.  On a match the base URL is
`(group(1) or https:) + // + group(2) + /`. -/
def initTarget (silent : Bool) (target : Option String) : InitTargetResult :=
  match target with
  | none => .ok DEFAULT_TARGET []
  | some t =>
    if t = "" then .ok DEFAULT_TARGET []
    else match targetMatch t.data with
    | some (scheme, host) =>
      .ok (String.mk ((scheme.getD "https:".data) ++ "//".data ++ host ++ ['/'])) []
    | none =>
      if silent then
        .raised (PyExc.attributeError "NoneType object has no attribute group")
          [invalidTargetMessage t]
      else .raised (PyExc.valueError (invalidTargetMessage t)) []

/-! ## Concrete fixtures used by counterexamples and witnesses -/

/-- A concrete buffered command. -/
def cmdA : Command := { name := "crm/events", data := "m1", scheduled := 0 }

/-- Another concrete buffered command. -/
def cmdB : Command := { name := "crm/events", data := "m2", scheduled := 0 }

/-! ## Claims -/

/-- C1: the spec demands that commands appended by producers during an
in-flight bulk send are never lost.  The code reassigns
`buffer = leftovers + buffer[ASYNC_BUFFER_MAX_SIZE:]` with the constant
`ASYNC_BUFFER_MAX_SIZE`, not with the size of the submitted batch, so when
fewer than `ASYNC_BUFFER_MAX_SIZE` commands were submitted, commands
appended during the round trip are dropped.  Concretely: a single command
`cmdA` is submitted (flush was requested), the server answers `retry`, and
one command `cmdB` is appended during the round trip; after reconciliation
the buffer is `[cmdA]` and `cmdB` has been lost. -/
theorem c1_inflight_append_lost :
    runSendBulk true { buffer := [cmdA], flush := true, stop := false }
        [{ status := some "retry", errors := [] }] [cmdB] =
      { buffer := [cmdA], flush := true, stop := false } ∧
    cmdB ∉ (runSendBulk true { buffer := [cmdA], flush := true, stop := false }
        [{ status := some "retry", errors := [] }] [cmdB]).buffer := by
  constructor
  · rfl
  · decide

/-- C2: a malformed target (here `a/b`, which has no host position matching
the pattern) raises `ValueError` (the spec's `ConfigurationError`) at
construction in raising mode, as claimed; but in silent mode the code logs
the message and then crashes with `AttributeError`, because it goes on to
call `.group` on the failed (`None`) match — construction does not
complete. -/
theorem c2_malformed_target :
    initTarget false (some "a/b") =
      .raised (PyExc.valueError (invalidTargetMessage "a/b")) [] ∧
    initTarget true (some "a/b") =
      .raised (PyExc.attributeError "NoneType object has no attribute group")
        [invalidTargetMessage "a/b"] := by
  exact ⟨rfl, rfl⟩

/-- C3 counterexample: the target `http://example.com` is accepted, and its
normalized base URL is `http://example.com/` — the explicit `http:` scheme
of the input is kept, so the normalized URL does not always use
`https://`. -/
theorem c3_counterexample :
    initTarget true (some "http://example.com") = .ok "http://example.com/" [] ∧
    "https://".data.isPrefixOf "http://example.com/".data = false := by
  exact ⟨rfl, by decide⟩

/-- C4: once `stop` has been requested (`close()` was called), every
subsequent `send_and_ignore` fails immediately with
`ValueError('The API is already closed')` — the spec's
`ConfigurationError` — before the buffer is touched: the result is the
error alone and no successor state (in particular no buffer change) is
produced. -/
theorem c4_enqueue_after_close_fails (t : AsynchronousTransport)
    (service message : String) (now : ℚ) (h : t.worker_data.stop = true) :
    send_and_ignore t service message now =
      .error (PyExc.valueError "The API is already closed") := by
  unfold send_and_ignore
  rw [h]
  rfl

/-- Witness for C4 at a concrete closed transport. -/
theorem c4_enqueue_after_close_fails_witness :
    send_and_ignore
        { worker_data := { buffer := [], flush := true, stop := true },
          worker_running := true } "crm/events" "m" 0 =
      .error (PyExc.valueError "The API is already closed") :=
  c4_enqueue_after_close_fails
    { worker_data := { buffer := [], flush := true, stop := true },
      worker_running := true } "crm/events" "m" 0 rfl

/-! ### C5: the flush condition -/

/-- Modelled from the spec: the flush condition exactly as §4.2 words it,
with the timeout disjunct using `oldestAge >= BUFFER_TIMEOUT`.  Used only
to compare the code's `flushCondition` against the spec's words. -/
def specFlushCondition (d : WorkerData) (now : ℚ) : Prop :=
  (0 < d.buffer.length ∧ d.flush = true) ∨
    ASYNC_BUFFER_MAX_SIZE < d.buffer.length ∨
    ∃ c rest, d.buffer = c :: rest ∧ ASYNC_BUFFER_TIMEOUT ≤ now - c.scheduled

/-- Characterization of the code's flush decision: it fires exactly when
the buffer is non-empty and `flush` is set, or the buffer strictly exceeds
`ASYNC_BUFFER_MAX_SIZE`, or the oldest command is STRICTLY older than
`ASYNC_BUFFER_TIMEOUT` (`timeout_in < 0`). -/
lemma flushCondition_iff (d : WorkerData) (now : ℚ) :
    flushCondition d now = true ↔
      (0 < d.buffer.length ∧ d.flush = true) ∨
        ASYNC_BUFFER_MAX_SIZE < d.buffer.length ∨
        ∃ c rest, d.buffer = c :: rest ∧ ASYNC_BUFFER_TIMEOUT < now - c.scheduled := by
  unfold flushCondition timeouted flushTimeoutIn
  cases hb : d.buffer with
  | nil =>
    simp [ASYNC_BUFFER_MAX_SIZE]
  | cons c rest =>
    simp only [Bool.or_eq_true, Bool.and_eq_true, decide_eq_true_eq, List.length_cons]
    constructor
    · rintro ((⟨h1, h2⟩ | h2) | h3)
      · exact Or.inl ⟨by simp, h2⟩
      · exact Or.inr (Or.inl (by simpa using h2))
      · refine Or.inr (Or.inr ⟨c, rest, rfl, ?_⟩)
        have h4 : c.scheduled + ASYNC_BUFFER_TIMEOUT - now < 0 := by simpa using h3
        linarith
    · rintro (⟨h1, h2⟩ | h2 | ⟨c', rest', he, h3⟩)
      · exact Or.inl (Or.inl ⟨by simp, h2⟩)
      · exact Or.inl (Or.inr (by simpa using h2))
      · have hc : c' = c := by
          injection he with hh tt
          exact hh.symm
        subst hc
        refine Or.inr ?_
        have h5 : c'.scheduled + ASYNC_BUFFER_TIMEOUT - now < 0 := by linarith
        simpa using h5

/-- C5 counterexample: one command scheduled at time 0, observed at time 1,
with `flush` unset.  The oldest age is exactly `ASYNC_BUFFER_TIMEOUT`, so
the spec's condition (with `>=`) holds, yet the worker does not enter
`Flushing`: it waits (with timeout 0). -/
theorem c5_counterexample :
    specFlushCondition { buffer := [cmdA], flush := false, stop := false } 1 ∧
    entersFlushing (workerStep true
      { buffer := [cmdA], flush := false, stop := false } 1 [] []) = false := by
  constructor
  · refine Or.inr (Or.inr ⟨cmdA, [], rfl, ?_⟩)
    norm_num [ASYNC_BUFFER_TIMEOUT, cmdA]
  · have hfc : flushCondition { buffer := [cmdA], flush := false, stop := false } 1 = false := by
      norm_num [flushCondition, timeouted, flushTimeoutIn, cmdA, ASYNC_BUFFER_MAX_SIZE,
        ASYNC_BUFFER_TIMEOUT]
    simp [workerStep, hfc, entersFlushing]

/-- C5 (amended): on every wake-up, the worker performs a bulk send if and
only if the buffer is non-empty and `flushRequested` is set, or the buffer
size strictly exceeds `ASYNC_BUFFER_MAX_SIZE`, or the buffer is non-empty
and the age of the oldest command is STRICTLY GREATER than
`ASYNC_BUFFER_TIMEOUT` (at age exactly equal to the timeout the worker
still waits). -/
theorem c5_flush_condition (silent : Bool) (d : WorkerData) (now : ℚ)
    (results : List BulkResult) (appended : List Command) :
    entersFlushing (workerStep silent d now results appended) = true ↔
      (0 < d.buffer.length ∧ d.flush = true) ∨
        ASYNC_BUFFER_MAX_SIZE < d.buffer.length ∨
        ∃ c rest, d.buffer = c :: rest ∧ ASYNC_BUFFER_TIMEOUT < now - c.scheduled := by
  rw [← flushCondition_iff]
  unfold workerStep
  by_cases hf : flushCondition d now = true
  · simp only [hf, if_true]
    cases hsb : sendBulkStep silent d results appended with
    | ok p =>
      by_cases he : p.1.buffer.length = 0 <;> simp [he, entersFlushing]
    | error e =>
      simp [entersFlushing]
  · simp only [Bool.not_eq_true] at hf
    simp only [hf, Bool.false_eq_true, if_false]
    by_cases hs : d.stop = true <;> simp [hs, entersFlushing]

/-- Witness for C5 at a concrete state: non-empty buffer with `flush` set
makes the worker enter `Flushing`. -/
theorem c5_flush_condition_witness :
    entersFlushing (workerStep true { buffer := [cmdA], flush := true, stop := false }
      0 [] []) = true :=
  (c5_flush_condition true { buffer := [cmdA], flush := true, stop := false }
    0 [] []).mpr (Or.inl ⟨by decide, rfl⟩)

/-! ### C6: missing positions in a short bulk response -/

/-- Every command whose position carries a `retry` status is put into the
leftovers by the classification loop. -/
lemma mem_fst_reconcileAux (results : List BulkResult) :
    ∀ (sel : List Command) (i0 j : Nat) (h : j < sel.length),
      statusOf results (i0 + j) = "retry" →
      sel.get ⟨j, h⟩ ∈ (reconcileAux results i0 sel).1 := by
  intro sel
  induction sel with
  | nil =>
    intro i0 j h
    exact absurd h (by simp)
  | cons c rest ih =>
    intro i0 j h hs
    cases j with
    | zero =>
      rw [Nat.add_zero] at hs
      simp [reconcileAux, hs]
    | succ j' =>
      have hj : j' < rest.length := by simpa using h
      have hs' : statusOf results (i0 + 1 + j') = "retry" := by
        rw [← hs]
        congr 1
        omega
      have hm := ih (i0 + 1) j' hj hs'
      have hget : (c :: rest).get ⟨j' + 1, h⟩ = rest.get ⟨j', hj⟩ := rfl
      rw [hget]
      simp only [reconcileAux]
      by_cases h1 : statusOf results i0 = "ok"
      · simpa [h1] using hm
      · by_cases h2 : statusOf results i0 = "retry"
        · simp only [h1, if_false, h2, if_true]
          exact List.mem_cons_of_mem _ hm
        · simpa [h1, h2] using hm

/-- C6: when the bulk response is shorter than the submitted batch, every
command at a missing position is classified `retry` and is re-inserted as
a leftover (neither dropped nor reported as an error). -/
theorem c6_short_response_is_retry (sel : List Command) (results : List BulkResult)
    (i : Nat) (h : i < sel.length) (hshort : results.length ≤ i) :
    statusOf results i = "retry" ∧ sel.get ⟨i, h⟩ ∈ (reconcile sel results).1 := by
  have hnone : results.get? i = none := List.get?_eq_none.mpr hshort
  have hs : statusOf results i = "retry" := by
    unfold statusOf
    rw [hnone]
  refine ⟨hs, ?_⟩
  have := mem_fst_reconcileAux results sel 0 i h (by rwa [Nat.zero_add])
  exact this

/-- Witness for C6: a batch of two commands answered by a single-entry
(`ok`) response; the second command is classified `retry` and kept. -/
theorem c6_short_response_is_retry_witness :
    statusOf [{ status := some "ok", errors := [] }] 1 = "retry" ∧
    [cmdA, cmdB].get ⟨1, by decide⟩ ∈
      (reconcile [cmdA, cmdB] [{ status := some "ok", errors := [] }]).1 :=
  c6_short_response_is_retry [cmdA, cmdB] [{ status := some "ok", errors := [] }]
    1 (by decide) (by decide)

/-! ### C7: the flush-flag lifecycle -/

lemma sendBulkStep_ok (silent : Bool) (d : WorkerData) (results : List BulkResult)
    (appended : List Command) (d' : WorkerData) (logs : List String)
    (h : sendBulkStep silent d results appended = .ok (d', logs)) :
    d' = { d with buffer :=
      (reconcile (d.buffer.take ASYNC_BUFFER_MAX_SIZE) results).1 ++
        (d.buffer ++ appended).drop ASYNC_BUFFER_MAX_SIZE } := by
  unfold sendBulkStep at h
  cases silent with
  | true =>
    simp only [if_true] at h
    simp only [Except.ok.injEq, Prod.mk.injEq] at h
    exact h.1.symm
  | false =>
    simp only [Bool.false_eq_true, if_false] at h
    cases he : (reconcile (d.buffer.take ASYNC_BUFFER_MAX_SIZE) results).2 with
    | nil =>
      rw [he] at h
      simp only [Except.ok.injEq, Prod.mk.injEq] at h
      exact h.1.symm
    | cons e es =>
      rw [he] at h
      exact absurd h (by simp)

/-- C7: the `flush` flag after a flushing wake-up is true exactly when it
was true before and the reconciled buffer is non-empty; equivalently, the
worker resets it exactly when the buffer became empty after
reconciliation, and leaves it alone otherwise.  Moreover setting the flag
via `flush()` makes the flush condition false on an empty buffer (a
no-op: no bulk send results) and true on a non-empty buffer (a bulk send
is forced regardless of the size and timeout thresholds). -/
theorem c7_flush_flag_lifecycle (silent : Bool) (d : WorkerData) (now : ℚ)
    (results : List BulkResult) (appended : List Command) :
    (∀ d', workerStep silent d now results appended = .flushed d' →
      (d'.flush = true ↔ (d.flush = true ∧ d'.buffer ≠ []))) ∧
    (∀ t : AsynchronousTransport, ∀ now' : ℚ, t.worker_data.buffer = [] →
      flushCondition (AsynchronousTransport.flush t).worker_data now' = false) ∧
    (∀ t : AsynchronousTransport, ∀ now' : ℚ, t.worker_data.buffer ≠ [] →
      flushCondition (AsynchronousTransport.flush t).worker_data now' = true) ∧
    (∀ e : PyExc, ∀ d', workerStep silent d now results appended = .died e d' →
      d'.flush = d.flush) := by
  refine ⟨?_, ?_, ?_, ?_⟩
  · intro d' hstep
    unfold workerStep at hstep
    by_cases hf : flushCondition d now = true
    · simp only [hf, if_true] at hstep
      cases hsb : sendBulkStep silent d results appended with
      | ok p =>
        have hd := sendBulkStep_ok silent d results appended p.1 p.2 (by rw [hsb])
        rw [hsb] at hstep
        by_cases he : p.1.buffer.length = 0
        · simp only [he, if_true] at hstep
          cases hstep
          have hb : p.1.buffer = [] := List.length_eq_zero.mp he
          simp [hb]
        · simp only [he, if_false] at hstep
          cases hstep
          have hb : p.1.buffer ≠ [] := fun hnil => he (by rw [hnil]; rfl)
          have hfl : p.1.flush = d.flush := by rw [hd]
          rw [hfl]
          simp [hb]
      | error e =>
        rw [hsb] at hstep
        exact absurd hstep (by simp)
    · simp only [Bool.not_eq_true] at hf
      simp only [hf, Bool.false_eq_true, if_false] at hstep
      by_cases hs : d.stop = true <;> simp [hs] at hstep
  · intro t now' hb
    unfold flushCondition timeouted flushTimeoutIn AsynchronousTransport.flush
    simp [hb, ASYNC_BUFFER_MAX_SIZE]
  · intro t now' hb
    unfold flushCondition AsynchronousTransport.flush
    have : 0 < t.worker_data.buffer.length := List.length_pos.mpr hb
    simp [this]
  · intro e d' hstep
    unfold workerStep at hstep
    by_cases hf : flushCondition d now = true
    · rw [if_pos hf] at hstep
      cases hsb : sendBulkStep silent d results appended with
      | ok p =>
        rw [hsb] at hstep
        by_cases he : p.1.buffer.length = 0
        · simp only [he, if_true] at hstep
          exact absurd hstep (by simp)
        · simp only [he, if_false] at hstep
          exact absurd hstep (by simp)
      | error e2 =>
        rw [hsb] at hstep
        injection hstep with h1 h2
        rw [← h2]
    · rw [if_neg hf] at hstep
      by_cases hs : d.stop = true
      · rw [if_pos hs] at hstep
        exact absurd hstep (by simp)
      · rw [if_neg hs] at hstep
        exact absurd hstep (by simp)

/-- Witness for C7: with an empty buffer, requesting a flush leaves the
flush condition false (no bulk send ensues). -/
theorem c7_flush_flag_lifecycle_witness :
    flushCondition (AsynchronousTransport.flush
      { worker_data := { buffer := [], flush := false, stop := false },
        worker_running := false }).worker_data 0 = false :=
  (c7_flush_flag_lifecycle true { buffer := [], flush := false, stop := false }
      0 [] []).2.1
    { worker_data := { buffer := [], flush := false, stop := false },
      worker_running := false } 0 rfl

/-! ### C9: worker termination -/

/-- C9: a wake-up ends the worker thread exactly when the flush condition
is false and `stop` has been requested; and because `close()` also sets
the `flush` flag, a worker that terminates while `flush` is set can only
do so with an empty buffer. -/
theorem c9_termination (silent : Bool) (d : WorkerData) (now : ℚ)
    (results : List BulkResult) (appended : List Command) :
    (workerStep silent d now results appended = .terminated ↔
      (flushCondition d now = false ∧ d.stop = true)) ∧
    (d.flush = true → workerStep silent d now results appended = .terminated →
      d.buffer = []) := by
  have hiff : workerStep silent d now results appended = .terminated ↔
      (flushCondition d now = false ∧ d.stop = true) := by
    unfold workerStep
    by_cases hf : flushCondition d now = true
    · simp only [hf, if_true]
      constructor
      · intro h
        cases hsb : sendBulkStep silent d results appended with
        | ok p =>
          rw [hsb] at h
          by_cases he : p.1.buffer.length = 0 <;> simp [he] at h
        | error e =>
          rw [hsb] at h
          exact absurd h (by simp)
      · rintro ⟨h1, _⟩
        exact absurd h1 (by simp)
    · simp only [Bool.not_eq_true] at hf
      simp only [hf, Bool.false_eq_true, if_false]
      by_cases hs : d.stop = true <;> simp [hs]
  refine ⟨hiff, ?_⟩
  intro hfl hterm
  obtain ⟨hf, _⟩ := hiff.mp hterm
  unfold flushCondition at hf
  simp only [Bool.or_eq_false_iff, Bool.and_eq_false_iff] at hf
  rcases hf.1.1 with h | h
  · have : ¬(0 < d.buffer.length) := by simpa using h
    have hlen : d.buffer.length = 0 := by omega
    exact List.length_eq_zero.mp hlen
  · rw [hfl] at h
    exact absurd h (by simp)

/-- Witness for C9: with an empty buffer and both flags set by `close()`,
the wake-up terminates the worker. -/
theorem c9_termination_witness :
    workerStep true { buffer := [], flush := true, stop := true } 0 [] [] =
      .terminated :=
  (c9_termination true { buffer := [], flush := true, stop := true } 0 [] []).1.mpr
    ⟨by norm_num [flushCondition, timeouted, flushTimeoutIn, ASYNC_BUFFER_MAX_SIZE], rfl⟩

/-! ### C8: classification of synchronous send outcomes -/

/-- If the error handler raised in raising mode, the silent mode logs the
same message for the same call. -/
lemma handle_routing (msg : String) (mk : String → PyExc) (nr nr2 : Bool) (e : PyExc)
    (hmk : ∀ m, (mk m).message = m)
    (h : handleToResult (ErrorHandler.handle false msg mk nr) = .raised e) :
    handleToResult (ErrorHandler.handle true msg mk nr2) = .logged e.message := by
  unfold ErrorHandler.handle handleToResult at h ⊢
  cases nr with
  | true =>
    simp at h
  | false =>
    simp only [Bool.or_self, Bool.false_eq_true, if_false] at h
    cases h1 : mk msg with
    | _ =>
      rw [h1] at h
      first
      | (injection h with h2
         simp only [Bool.true_or, if_true]
         rw [← h2, ← h1, hmk])

/-- Whatever the handler was asked to raise is what comes out when the
result is a raised exception. -/
lemma handle_raised (silent nr : Bool) (msg : String) (mk : String → PyExc) (e : PyExc)
    (h : handleToResult (ErrorHandler.handle silent msg mk nr) = .raised e) :
    e = mk msg := by
  unfold ErrorHandler.handle handleToResult at h
  by_cases hc : (silent || nr) = true
  · rw [if_pos hc] at h
    exact absurd h (by simp)
  · rw [if_neg hc] at h
    injection h with h1
    exact h1.symm

/-- C8: `SynchronousTransport._send` classifies outcomes as specified:
connection errors and timeouts give `ServiceUnavailable`; HTTP 401 gives
`AuthenticationError`; a 503/504 whose envelope is not successful gives
`ServiceUnavailable`; any other non-successful envelope gives
`InvalidRequest` whose message carries the server-provided error list
(when that list is present and non-empty); a successful envelope is
returned as-is in every mode.  Every failure goes through the error
handler: whatever raises in raising mode is logged (same message) in
silent mode, and a raised exception is always one of the three typed
errors above. -/
theorem c8_send_classification (target service : String) :
    (sendSync false false target service .connectionError =
      .raised (PyExc.serviceUnavailable (connectionErrorMessage target))) ∧
    (sendSync false false target service .timeout =
      .raised (PyExc.serviceUnavailable (timeoutMessage service))) ∧
    (∀ r : HttpResponse, r.status_code = 401 →
      sendSync false false target service (.response r) =
        .raised (PyExc.authenticationError authFailureMessage)) ∧
    (∀ r : HttpResponse, ∀ silent no_raise : Bool,
      r.status_code ≠ 401 → r.success = true →
      sendSync silent no_raise target service (.response r) = .success r) ∧
    (∀ r : HttpResponse, r.status_code ≠ 401 → r.success = false →
      (r.status_code = 503 ∨ r.status_code = 504) →
      sendSync false false target service (.response r) =
        .raised (PyExc.serviceUnavailable
          (unavailableMessage (renderErrors (envelopeErrors r))))) ∧
    (∀ r : HttpResponse, r.status_code ≠ 401 → r.success = false →
      ¬(r.status_code = 503 ∨ r.status_code = 504) →
      sendSync false false target service (.response r) =
        .raised (PyExc.invalidRequest
          (invalidRequestMessage (renderErrors (envelopeErrors r))))) ∧
    (∀ r : HttpResponse, ∀ l : List String, r.errors = some l → l ≠ [] →
      envelopeErrors r = Sum.inr l) ∧
    (∀ o : HttpOutcome, ∀ e : PyExc, ∀ nr nr2 : Bool,
      sendSync false nr target service o = .raised e →
      sendSync true nr2 target service o = .logged e.message) ∧
    (∀ silent nr : Bool, ∀ o : HttpOutcome, ∀ e : PyExc,
      sendSync silent nr target service o = .raised e →
      ((∃ m, e = PyExc.serviceUnavailable m) ∨
        (∃ m, e = PyExc.authenticationError m) ∨
        (∃ m, e = PyExc.invalidRequest m))) := by
  refine ⟨rfl, rfl, ?_, ?_, ?_, ?_, ?_, ?_, ?_⟩
  · intro r h
    simp [sendSync, h, ErrorHandler.handle, handleToResult]
  · intro r silent no_raise h1 h2
    simp [sendSync, h1, h2]
  · intro r h1 h2 h3
    simp [sendSync, h1, h2, h3, ErrorHandler.handle, handleToResult]
  · intro r h1 h2 h3
    simp [sendSync, h1, h2, h3, ErrorHandler.handle, handleToResult]
  · intro r l hl hne
    unfold envelopeErrors
    rw [hl]
    simp [hne]
  · intro o e nr nr2 h
    cases o with
    | connectionError =>
      exact handle_routing (connectionErrorMessage target) PyExc.serviceUnavailable
        nr nr2 e (fun m => rfl) h
    | timeout =>
      exact handle_routing (timeoutMessage service) PyExc.serviceUnavailable
        nr nr2 e (fun m => rfl) h
    | response r =>
      by_cases h401 : r.status_code = 401
      · rw [sendSync, if_pos h401] at h
        rw [sendSync, if_pos h401]
        exact handle_routing _ _ nr nr2 e (fun m => rfl) h
      · by_cases hsucc : r.success = true
        · rw [sendSync, if_neg h401, if_pos hsucc] at h
          exact absurd h (by simp)
        · by_cases h5 : (r.status_code = 503 ∨ r.status_code = 504)
          · rw [sendSync, if_neg h401, if_neg hsucc] at h
            rw [if_pos h5] at h
            rw [sendSync, if_neg h401, if_neg hsucc]
            rw [if_pos h5]
            exact handle_routing _ _ nr nr2 e (fun m => rfl) h
          · rw [sendSync, if_neg h401, if_neg hsucc] at h
            rw [if_neg h5] at h
            rw [sendSync, if_neg h401, if_neg hsucc]
            rw [if_neg h5]
            exact handle_routing _ _ nr nr2 e (fun m => rfl) h
  · intro silent nr o e h
    cases o with
    | connectionError =>
      have := handle_raised silent nr _ _ e h
      exact Or.inl ⟨_, this⟩
    | timeout =>
      have := handle_raised silent nr _ _ e h
      exact Or.inl ⟨_, this⟩
    | response r =>
      by_cases h401 : r.status_code = 401
      · rw [sendSync, if_pos h401] at h
        exact Or.inr (Or.inl ⟨_, handle_raised silent nr _ _ e h⟩)
      · by_cases hsucc : r.success = true
        · rw [sendSync, if_neg h401, if_pos hsucc] at h
          exact absurd h (by simp)
        · by_cases h5 : (r.status_code = 503 ∨ r.status_code = 504)
          · rw [sendSync, if_neg h401, if_neg hsucc] at h
            rw [if_pos h5] at h
            exact Or.inl ⟨_, handle_raised silent nr _ _ e h⟩
          · rw [sendSync, if_neg h401, if_neg hsucc] at h
            rw [if_neg h5] at h
            exact Or.inr (Or.inr ⟨_, handle_raised silent nr _ _ e h⟩)

/-- Witness for C8 at a concrete 401 response. -/
theorem c8_send_classification_witness :
    sendSync false false "https://nope/" "bulk"
      (.response { status_code := 401, success := false, errors := none, text := "" }) =
      .raised (PyExc.authenticationError authFailureMessage) :=
  (c8_send_classification "https://nope/" "bulk").2.2.1
    { status_code := 401, success := false, errors := none, text := "" } rfl

/-! ### C10: a response entry without a status field -/

/-- The leftovers computed by the classification loop are exactly the
commands whose (offset) position carries a `retry` status. -/
lemma reconcileAux_fst (results : List BulkResult) :
    ∀ (sel : List Command) (i0 : Nat),
      (reconcileAux results i0 sel).1 =
        ((sel.enumFrom i0).filter
          (fun p => decide (statusOf results p.1 = "retry"))).map Prod.snd := by
  intro sel
  induction sel with
  | nil =>
    intro i0
    rfl
  | cons c rest ih =>
    intro i0
    by_cases h1 : statusOf results i0 = "ok"
    · have hne : ¬(statusOf results i0 = "retry") := by
        rw [h1]
        decide
      simp [reconcileAux, h1, hne, List.enumFrom, List.filter_cons, ih]
    · by_cases h2 : statusOf results i0 = "retry"
      · simp [reconcileAux, h1, h2, List.enumFrom, List.filter_cons, ih]
      · simp [reconcileAux, h1, h2, List.enumFrom, List.filter_cons, ih]

/-- A command whose position carries a status that is neither `ok` nor
`retry` contributes its error message to the reported errors. -/
lemma mem_snd_reconcileAux (results : List BulkResult) :
    ∀ (sel : List Command) (i0 j : Nat), j < sel.length →
      statusOf results (i0 + j) ≠ "ok" → statusOf results (i0 + j) ≠ "retry" →
      bulkErrorMessage (statusOf results (i0 + j)) (errorsAt results (i0 + j)) ∈
        (reconcileAux results i0 sel).2 := by
  intro sel
  induction sel with
  | nil =>
    intro i0 j h
    exact absurd h (by simp)
  | cons c rest ih =>
    intro i0 j h hok hretry
    cases j with
    | zero =>
      rw [Nat.add_zero] at hok hretry ⊢
      simp [reconcileAux, hok, hretry]
    | succ j' =>
      have hj : j' < rest.length := by simpa using h
      have heq : i0 + (j' + 1) = (i0 + 1) + j' := by omega
      rw [heq] at hok hretry ⊢
      have hm := ih (i0 + 1) j' hj hok hretry
      by_cases h1 : statusOf results i0 = "ok"
      · simpa [reconcileAux, h1] using hm
      · by_cases h2 : statusOf results i0 = "retry"
        · simpa [reconcileAux, h1, h2] using hm
        · simp [reconcileAux, h1, h2]
          exact Or.inr hm

/-- C10 (amended): a response entry present at a submitted command's
position but lacking a `status` field is classified with the placeholder
status `missing` — neither `ok` nor `retry` — and its error message is
reported to the error handler; the command is excluded from the leftovers
(which are exactly the retry-status commands).  In silent mode the
reported errors are logged and the buffer update drops the command
permanently; in raising mode the first reported error raises
`ServiceUnavailable` and the buffer update is skipped, leaving the buffer
(including the submitted commands) as it was. -/
theorem c10_missing_status_field (sel : List Command) (results : List BulkResult)
    (i : Nat) (r : BulkResult) (h : i < sel.length)
    (hr : results.get? i = some r) (hs : r.status = none) :
    statusOf results i = "missing" ∧
    bulkErrorMessage "missing" r.errors ∈ (reconcile sel results).2 ∧
    (reconcile sel results).1 =
      ((sel.enum.filter (fun p => decide (statusOf results p.1 = "retry"))).map
        Prod.snd) ∧
    (∀ st : WorkerData, ∀ appended : List Command,
      st.buffer.take ASYNC_BUFFER_MAX_SIZE = sel →
      runSendBulk true st results appended =
        { st with buffer := (reconcile sel results).1 ++
            (st.buffer ++ appended).drop ASYNC_BUFFER_MAX_SIZE } ∧
      runSendBulk false st results appended =
        { st with buffer := st.buffer ++ appended }) := by
  have hstat : statusOf results i = "missing" := by
    unfold statusOf
    rw [hr]
    simp [hs]
  have herr : errorsAt results i = r.errors := by
    unfold errorsAt
    rw [hr]
  have hok : statusOf results i ≠ "ok" := by
    rw [hstat]
    decide
  have hretry : statusOf results i ≠ "retry" := by
    rw [hstat]
    decide
  have hmem : bulkErrorMessage "missing" r.errors ∈ (reconcile sel results).2 := by
    have := mem_snd_reconcileAux results sel 0 i
      (by simpa using h) (by rwa [Nat.zero_add]) (by rwa [Nat.zero_add])
    rw [Nat.zero_add, hstat, herr] at this
    exact this
  have hne : (reconcile sel results).2 ≠ [] := by
    intro hnil
    rw [hnil] at hmem
    exact absurd hmem (List.not_mem_nil _)
  refine ⟨hstat, hmem, ?_, ?_⟩
  · exact reconcileAux_fst results sel 0
  · intro st appended htake
    constructor
    · unfold runSendBulk sendBulkStep
      rw [htake]
      simp
    · unfold runSendBulk sendBulkStep
      rw [htake]
      cases hc : (reconcile sel results).2 with
      | nil => exact absurd hc hne
      | cons e es => simp [hc]

/-- A concrete bulk response whose single entry has no status field. -/
def resX : List BulkResult := [{ status := none, errors := ["boom"] }]

/-- A concrete worker state holding the single command `cmdA`. -/
def stX : WorkerData := { buffer := [cmdA], flush := true, stop := false }

/-- Witness for C10 at the concrete fixture: the status is `missing`, the
message is reported, and in raising mode the buffer update is skipped. -/
theorem c10_missing_status_field_witness :
    statusOf resX 0 = "missing" ∧
    bulkErrorMessage "missing" ["boom"] ∈ (reconcile [cmdA] resX).2 ∧
    runSendBulk false stX resX [] = { stX with buffer := stX.buffer ++ [] } := by
  have h := c10_missing_status_field [cmdA] resX 0
    { status := none, errors := ["boom"] } (by decide) rfl rfl
  exact ⟨h.1, h.2.1, (h.2.2.2 stX [] rfl).2⟩

/-! ### C3 (amended): shape of the normalized base URL -/

/-- A successful host match is non-empty and contains no slash. -/
lemma hostSplit_some (rest host : List Char) (h : hostSplit rest = some host) :
    host ≠ [] ∧ ∀ c ∈ host, c ≠ '/' := by
  unfold hostSplit at h
  split_ifs at h with h1 h2
  injection h with h3
  constructor
  · rw [← h3]
    exact h1
  · intro c hc
    rw [← h3] at hc
    have hp := List.mem_takeWhile_imp hc
    simpa using hp

/-- A successful scheme-alternative match pins down the captured scheme,
the prefix and the host split. -/
lemma matchPre_some (cs pre : List Char) (scheme : Option (List Char))
    (m : Option (List Char) × List Char) (h : matchPre cs pre scheme = some m) :
    m.1 = scheme ∧ pre.isPrefixOf cs = true ∧
      hostSplit (cs.drop pre.length) = some m.2 := by
  unfold matchPre at h
  by_cases hp : pre.isPrefixOf cs = true
  · rw [if_pos hp] at h
    cases hh : hostSplit (cs.drop pre.length) with
    | none =>
      rw [hh] at h
      exact absurd h (by simp)
    | some hst =>
      rw [hh] at h
      simp only [Option.map_some', Option.some.injEq] at h
      subst h
      exact ⟨rfl, hp, rfl⟩
  · rw [if_neg hp] at h
    exact absurd h (by simp)

/-- Structure of a successful target match: the host is non-empty and
slash-free, the captured scheme is `https:`, `http:` or absent, and an
`http:` capture can only come from an input that literally starts with
`http://`. -/
lemma targetMatch_some (cs : List Char) (scheme : Option (List Char))
    (host : List Char) (h : targetMatch cs = some (scheme, host)) :
    host ≠ [] ∧ (∀ c ∈ host, c ≠ '/') ∧
    (scheme = none ∨ scheme = some "https:".data ∨ scheme = some "http:".data) ∧
    (scheme = some "http:".data → "http://".data.isPrefixOf cs = true) := by
  unfold targetMatch at h
  cases h1 : matchPre cs "https://".data (some "https:".data) with
  | some m =>
    rw [h1] at h
    simp only [Option.some.injEq] at h
    subst h
    obtain ⟨hm1, hp, hh⟩ := matchPre_some _ _ _ _ h1
    have hm1' : scheme = some "https:".data := by simpa using hm1
    have hh' : hostSplit (cs.drop "https://".data.length) = some host := by
      simpa using hh
    obtain ⟨hne, hslash⟩ := hostSplit_some _ _ hh'
    refine ⟨hne, hslash, Or.inr (Or.inl hm1'), ?_⟩
    intro hcontra
    rw [hcontra] at hm1'
    exact absurd hm1' (by decide)
  | none =>
    rw [h1] at h
    cases h2 : matchPre cs "http://".data (some "http:".data) with
    | some m =>
      rw [h2] at h
      simp only [Option.some.injEq] at h
      subst h
      obtain ⟨hm1, hp, hh⟩ := matchPre_some _ _ _ _ h2
      have hm1' : scheme = some "http:".data := by simpa using hm1
      have hh' : hostSplit (cs.drop "http://".data.length) = some host := by
        simpa using hh
      obtain ⟨hne, hslash⟩ := hostSplit_some _ _ hh'
      exact ⟨hne, hslash, Or.inr (Or.inr hm1'), fun _ => hp⟩
    | none =>
      rw [h2] at h
      cases h3 : matchPre cs "//".data none with
      | some m =>
        rw [h3] at h
        simp only [Option.some.injEq] at h
        subst h
        obtain ⟨hm1, hp, hh⟩ := matchPre_some _ _ _ _ h3
        have hm1' : scheme = none := by simpa using hm1
        have hh' : hostSplit (cs.drop "//".data.length) = some host := by
          simpa using hh
        obtain ⟨hne, hslash⟩ := hostSplit_some _ _ hh'
        refine ⟨hne, hslash, Or.inl hm1', ?_⟩
        intro hcontra
        rw [hcontra] at hm1'
        exact absurd hm1' (by simp)
      | none =>
        rw [h3] at h
        cases h4 : hostSplit cs with
        | none =>
          rw [h4] at h
          exact absurd h (by simp)
        | some hst =>
          rw [h4] at h
          simp only [Option.map_some', Option.some.injEq, Prod.mk.injEq] at h
          obtain ⟨hsch, hhost⟩ := h
          subst hhost
          obtain ⟨hne, hslash⟩ := hostSplit_some _ _ h4
          refine ⟨hne, hslash, Or.inl hsch.symm, ?_⟩
          intro hcontra
          rw [hcontra] at hsch
          exact absurd hsch (by simp)

/-- C3 (amended): every accepted target normalizes to
`scheme + // + host + /` where the host is non-empty and slash-free (so
the URL ends in exactly one trailing slash, any trailing slashes of the
input having been stripped), and the scheme is `https:` unless the input
itself began with `http://`, in which case `http:` is kept. -/
theorem c3_target_normalized (silent : Bool) (s : String)
    (scheme : Option (List Char)) (host : List Char)
    (h : targetMatch s.data = some (scheme, host)) :
    initTarget silent (some s) =
      .ok (String.mk ((scheme.getD "https:".data) ++ "//".data ++ host ++ ['/'])) [] ∧
    host ≠ [] ∧ (∀ c ∈ host, c ≠ '/') ∧
    ((scheme.getD "https:".data) = "https:".data ∨
      ((scheme.getD "https:".data) = "http:".data ∧
        "http://".data.isPrefixOf s.data = true)) := by
  obtain ⟨hne, hslash, hcases, hhttp⟩ := targetMatch_some _ _ _ h
  have hsne : ¬(s = "") := by
    intro hempty
    subst hempty
    rw [show ("" : String).data = [] from rfl] at h
    rw [show targetMatch [] = none from rfl] at h
    exact Option.noConfusion h
  refine ⟨?_, hne, hslash, ?_⟩
  · simp only [initTarget]
    rw [if_neg hsne, h]
  · rcases hcases with h0 | h0 | h0
    · left
      rw [h0]
      rfl
    · left
      rw [h0]
      rfl
    · right
      exact ⟨by rw [h0]; rfl, hhttp h0⟩

/-- Witness for C3 at the protocol-relative target `//nope` (taken from
the repository's test-suite fixtures): scheme defaults to `https:`. -/
theorem c3_target_normalized_witness :
    initTarget true (some "//nope") =
      .ok (String.mk (((none : Option (List Char)).getD "https:".data) ++
        "//".data ++ "nope".data ++ ['/'])) [] ∧
    "nope".data ≠ [] ∧ (∀ c ∈ "nope".data, c ≠ '/') ∧
    (((none : Option (List Char)).getD "https:".data) = "https:".data ∨
      (((none : Option (List Char)).getD "https:".data) = "http:".data ∧
        "http://".data.isPrefixOf "//nope".data = true)) :=
  c3_target_normalized true "//nope" none "nope".data (by decide)

/-- C10 counterexample: in raising (non-silent) mode, the first error for
the status-less entry raises before the buffer assignment, so the
submitted command `cmdA` is NOT dropped: the buffer still contains it
after `_send_bulk` aborts. -/
theorem c10_counterexample :
    runSendBulk false stX resX [] = stX ∧
    cmdA ∈ (runSendBulk false stX resX []).buffer := by
  exact ⟨by decide, by decide⟩

end Infinario
